import Mathlib

/-!
Shallow embedding of the cloudpork-agent analysis pipeline.

Sources embedded here:
- internal/types (the Report data model: CodeAnalysis, ResourceMetrics, ...)
- internal/analyzer/analyzer.go (postProcess, estimateCurrentUsers,
  validateResourceEstimates - the Report Normalizer)
- internal/claude (the orchestrator Analyze, the text extractors and the
  resource-estimation defaults)
- internal/api/client.go (SendAnalysis response handling)

Modelling conventions: Go `int` is modelled as `Int` (no claim here depends on
64-bit overflow), `time.Time` as an opaque `Nat`, Go strings as `String` or
`List Char`. Go `float64` values are modelled as exact rationals together with
the binary64 rounding function `fl` (round to nearest, ties to even, 53-bit
significand): every float64 arithmetic operation of the source is embedded as
the exact rational operation followed by `fl`, which is how IEEE-754 defines
it. The magnitudes arising in the analyzer stay far inside the binary64 normal
range, so exponent overflow and subnormals (which cannot occur here) are not
modelled.
-/

namespace CloudPork

/-- ResourceMetrics (internal/types): estimated resource requirements.
Field names follow the Go struct. -/
structure ResourceMetrics where
  MemoryMB : Int
  CPUCores : ℚ
  DatabaseConns : Int
  NetworkMbps : Int
  StorageGB : Int
deriving DecidableEq

/-- Bottleneck (internal/types): a scaling bottleneck record. -/
structure Bottleneck where
  type : String
  Description : String
  Severity : String
  Impact : String
deriving DecidableEq

/-- SecurityIssue (internal/types): a security concern record. -/
structure SecurityIssue where
  type : String
  Description : String
  Severity : String
  Line : Int
  File : String
deriving DecidableEq

/-- PerformanceMetrics (internal/types): performance characteristics. -/
structure PerformanceMetrics where
  AvgResponseTime : Int
  DatabaseQueries : Int
  CacheHitRate : Int
  HasNPlusOneQuery : Bool
  HasLargePayloads : Bool
deriving DecidableEq

/-- CodeAnalysis (internal/types): the complete analysis Report, built
incrementally by the passes and normalized by postProcess. -/
structure CodeAnalysis where
  ProjectID : String
  Timestamp : Nat
  Directory : String
  Language : String
  Framework : String
  Dependencies : List String
  DatabaseCalls : Int
  ApiEndpoints : Int
  StatelessFuncs : Int
  BackgroundJobs : List String
  CacheUsage : List String
  FileUploads : Bool
  ComplexityScore : Int
  ScalingBottlenecks : List Bottleneck
  ResourceUsage : ResourceMetrics
  EstimatedUsers : Int
  SecurityIssues : List SecurityIssue
  Performance : PerformanceMetrics
deriving DecidableEq

/-- Truncation of a rational toward zero, the semantics of Go's `int(f)`
conversion from float64 (analyzer.go line 145). -/
def ratTruncToInt (q : ℚ) : Int := q.num.tdiv q.den

/-- Round a rational to the nearest integer, ties to even — the IEEE-754
default rounding, applied to the scaled significand. -/
def roundNearestEven (q : ℚ) : Int :=
  let f := ⌊q⌋
  let r := q - f
  if r < 1/2 then f
  else if 1/2 < r then f + 1
  else if f % 2 = 0 then f else f + 1

/-- Binary64 rounding of a rational: the significand is scaled into
[2^52, 2^53), rounded to nearest (ties to even) and scaled back — the value a
float64 operation returns when its exact result is q. The analyzer's values
stay far inside the normal range, so exponent overflow and subnormals are not
modelled. -/
def fl (q : ℚ) : ℚ :=
  if q = 0 then 0
  else
    (roundNearestEven (q / 2 ^ (Int.log 2 |q| - 52)) : ℚ) * 2 ^ (Int.log 2 |q| - 52)

/-- estimateCurrentUsers (analyzer.go lines 126-156): derives the estimated
current user count from complexity, endpoint count and background jobs, then
clamps the result into [100, 1000000] by two sequential bound checks. The Go
arithmetic is float64: the int-to-float conversions, the two divisions and the
three multiplications of the product chain each round to binary64, embedded
here by `fl` around the corresponding exact operation. -/
def estimateCurrentUsers (analysis : CodeAnalysis) : Int :=
  let baseUsers : Int := 1000
  let complexityMultiplier : ℚ := fl (fl (analysis.ComplexityScore : ℚ) / 50)
  let endpointMultiplier0 : ℚ := fl (fl (analysis.ApiEndpoints : ℚ) / 10)
  let endpointMultiplier : ℚ :=
    if endpointMultiplier0 < 1/2 then 1/2 else endpointMultiplier0
  let jobMultiplier : ℚ :=
    if 0 < analysis.BackgroundJobs.length then 3/2 else 1
  let estimated := ratTruncToInt
    (fl (fl (fl (fl (baseUsers : ℚ) * complexityMultiplier) * endpointMultiplier) * jobMultiplier))
  let estimated1 := if estimated < 100 then 100 else estimated
  let estimated2 := if estimated1 > 1000000 then 1000000 else estimated1
  estimated2

/-- validateResourceEstimates (analyzer.go lines 159-201): clamps every
resource field into its fixed range by two sequential bound checks per field. -/
def validateResourceEstimates (r : ResourceMetrics) : ResourceMetrics :=
  let mem1 := if r.MemoryMB < 128 then 128 else r.MemoryMB
  let mem2 := if mem1 > 16384 then 16384 else mem1
  let cpu1 := if r.CPUCores < 1/10 then (1/10 : ℚ) else r.CPUCores
  let cpu2 := if cpu1 > 32 then (32 : ℚ) else cpu1
  let db1 := if r.DatabaseConns < 1 then 1 else r.DatabaseConns
  let db2 := if db1 > 1000 then 1000 else db1
  let net1 := if r.NetworkMbps < 1 then 1 else r.NetworkMbps
  let net2 := if net1 > 10000 then 10000 else net1
  let st1 := if r.StorageGB < 1 then 1 else r.StorageGB
  let st2 := if st1 > 10000 then 10000 else st1
  { MemoryMB := mem2, CPUCores := cpu2, DatabaseConns := db2,
    NetworkMbps := net2, StorageGB := st2 }

/-- postProcess (analyzer.go lines 106-123), the Report Normalizer. The Go code
mutates the report in place in this order: estimated users (computed from the
incoming report, before any defaulting), the language/framework/complexity
defaults (each read from the incoming value), and resource clamping. Each step
reads only fields the earlier steps did not write, so the sequence is exactly
this single record update. -/
def postProcess (a : CodeAnalysis) : CodeAnalysis :=
  { a with
    EstimatedUsers := estimateCurrentUsers a
    Language := if a.Language = "" then "Unknown" else a.Language
    Framework := if a.Framework = "" then "Unknown" else a.Framework
    ComplexityScore := if a.ComplexityScore = 0 then 50 else a.ComplexityScore
    ResourceUsage := validateResourceEstimates a.ResourceUsage }

/-- A Report with every field zero or empty, as the orchestrator creates it and
as a pass sequence that extracted nothing would leave it (complexity score 0 is
the unset sentinel). -/
def zeroReport : CodeAnalysis :=
  { ProjectID := "", Timestamp := 0, Directory := "", Language := "", Framework := "",
    Dependencies := [], DatabaseCalls := 0, ApiEndpoints := 0, StatelessFuncs := 0,
    BackgroundJobs := [], CacheUsage := [], FileUploads := false, ComplexityScore := 0,
    ScalingBottlenecks := [],
    ResourceUsage := { MemoryMB := 0, CPUCores := 0, DatabaseConns := 0,
                       NetworkMbps := 0, StorageGB := 0 },
    EstimatedUsers := 0, SecurityIssues := [],
    Performance := { AvgResponseTime := 0, DatabaseQueries := 0, CacheHitRate := 0,
                     HasNPlusOneQuery := false, HasLargePayloads := false } }

theorem ratTruncToInt_intCast (k : Int) : ratTruncToInt (k : ℚ) = k := by
  simp [ratTruncToInt, Rat.num_intCast, Rat.den_intCast]

theorem ratTruncToInt_eq_floor (q : ℚ) (h : 0 ≤ q) : ratTruncToInt q = ⌊q⌋ := by
  rw [ratTruncToInt, Rat.floor_def,
    Int.tdiv_eq_ediv (Rat.num_nonneg.mpr h) (Int.natCast_nonneg _)]

theorem ratTruncToInt_zero : ratTruncToInt 0 = 0 := by
  have h := ratTruncToInt_intCast 0
  simpa using h

theorem ratTruncToInt_500 : ratTruncToInt (500 : ℚ) = 500 := by
  have h := ratTruncToInt_intCast 500
  push_cast at h
  exact h

theorem fl_zero : fl 0 = 0 := if_pos rfl

theorem roundNearestEven_intCast (k : Int) : roundNearestEven (k : ℚ) = k := by
  unfold roundNearestEven
  rw [Int.floor_intCast]
  norm_num

/-- Characterization of fl on the binade [2^(s+52), 2^(s+53)): the significand
is q / 2^s. -/
theorem fl_spec (q : ℚ) (s : Int) (h1 : (2:ℚ) ^ (s + 52) ≤ |q|) (h2 : |q| < 2 ^ (s + 53)) :
    fl q = (roundNearestEven (q / 2 ^ s) : ℚ) * 2 ^ s := by
  have habs : (0:ℚ) < |q| := lt_of_lt_of_le (by positivity) h1
  have hq0 : q ≠ 0 := by
    intro h
    rw [h, abs_zero] at habs
    exact lt_irrefl 0 habs
  have hlog : Int.log 2 |q| = s + 52 := by
    have hle : s + 52 ≤ Int.log 2 |q| := by
      refine (Int.zpow_le_iff_le_log (by norm_num) habs).mp ?_
      exact_mod_cast h1
    have hlt : Int.log 2 |q| < s + 53 := by
      refine (Int.lt_zpow_iff_log_lt (by norm_num) habs).mp ?_
      exact_mod_cast h2
    omega
  unfold fl
  rw [if_neg hq0, hlog]
  norm_num

/-- Dyadic rationals with a significand below 2^53 are binary64 values: fl
fixes them. -/
theorem fl_dyadic (k t : Int) (hk : |k| < 2 ^ 53) (hk0 : k ≠ 0) :
    fl ((k : ℚ) * 2 ^ t) = (k : ℚ) * 2 ^ t := by
  have h2t : (0:ℚ) < 2 ^ t := by positivity
  have hq0 : (k : ℚ) * 2 ^ t ≠ 0 := by
    have : (k:ℚ) ≠ 0 := Int.cast_ne_zero.mpr hk0
    positivity
  have habs : (0:ℚ) < |(k : ℚ) * 2 ^ t| := abs_pos.mpr hq0
  have hqa : |(k : ℚ) * 2 ^ t| = |(k:ℚ)| * 2 ^ t := by
    rw [abs_mul, abs_of_pos h2t]
  have hk53 : |(k:ℚ)| < 2 ^ (53:Int) := by
    have ha : |(k:ℚ)| = ((|k| : Int) : ℚ) := (Int.cast_abs).symm
    have hb : ((|k| : Int) : ℚ) < ((2 ^ 53 : Int) : ℚ) := Int.cast_lt.mpr hk
    rw [ha]
    calc ((|k| : Int) : ℚ) < ((2 ^ 53 : Int) : ℚ) := hb
      _ = 2 ^ (53:Int) := by push_cast; norm_num
  have h53 : |(k : ℚ) * 2 ^ t| < 2 ^ (t + 53) := by
    rw [hqa, zpow_add₀ (by norm_num : (2:ℚ) ≠ 0)]
    calc |(k:ℚ)| * 2 ^ t < 2 ^ (53:Int) * 2 ^ t := mul_lt_mul_of_pos_right hk53 h2t
      _ = 2 ^ t * 2 ^ (53:Int) := by ring
  set s : Int := Int.log 2 |(k : ℚ) * 2 ^ t| - 52 with hsdef
  have hst : s ≤ t := by
    have hlt : Int.log 2 |(k : ℚ) * 2 ^ t| < t + 53 :=
      (Int.lt_zpow_iff_log_lt (by norm_num) habs).mp (by exact_mod_cast h53)
    omega
  set n : ℕ := (t - s).toNat with hndef
  have hn : (n : Int) = t - s := by omega
  have harg : ((k : ℚ) * 2 ^ t) / 2 ^ s = ((k * 2 ^ n : Int) : ℚ) := by
    rw [mul_div_assoc, ← zpow_sub₀ (by norm_num : (2:ℚ) ≠ 0)]
    push_cast
    rw [← hn, zpow_natCast]
  unfold fl
  rw [if_neg hq0, ← hsdef, harg, roundNearestEven_intCast]
  push_cast
  rw [mul_assoc, ← zpow_natCast (2:ℚ) n, ← zpow_add₀ (by norm_num : (2:ℚ) ≠ 0)]
  congr 2
  omega

theorem fl_intCast (k : Int) (hk : |k| < 2 ^ 53) : fl (k : ℚ) = k := by
  rcases eq_or_ne k 0 with rfl | hk0
  · rw [Int.cast_zero, fl_zero]
  · have h := fl_dyadic k 0 hk hk0
    simpa using h

theorem roundNearestEven_eq_of_lt (q : ℚ) (n : Int) (h1 : (n:ℚ) ≤ q) (h2 : q < (n:ℚ) + 1/2) :
    roundNearestEven q = n := by
  have hf : ⌊q⌋ = n := Int.floor_eq_iff.mpr ⟨h1, by linarith⟩
  unfold roundNearestEven
  rw [hf, if_pos (by linarith)]

theorem roundNearestEven_eq_of_gt (q : ℚ) (n : Int) (h1 : (n:ℚ) + 1/2 < q) (h2 : q < (n:ℚ) + 1) :
    roundNearestEven q = n + 1 := by
  have hf : ⌊q⌋ = n := Int.floor_eq_iff.mpr ⟨by linarith, h2⟩
  unfold roundNearestEven
  rw [hf, if_neg (by linarith), if_pos (by linarith)]

theorem fl_1 : fl ((1:ℚ)) = 1 := by
  have h := fl_intCast 1 (by norm_num)
  push_cast at h
  exact h

theorem fl_3 : fl ((3:ℚ)) = 3 := by
  have h := fl_intCast 3 (by norm_num)
  push_cast at h
  exact h

theorem fl_41 : fl ((41:ℚ)) = 41 := by
  have h := fl_intCast 41 (by norm_num)
  push_cast at h
  exact h

theorem fl_50 : fl ((50:ℚ)) = 50 := by
  have h := fl_intCast 50 (by norm_num)
  push_cast at h
  exact h

theorem fl_500 : fl ((500:ℚ)) = 500 := by
  have h := fl_intCast 500 (by norm_num)
  push_cast at h
  exact h

theorem fl_1000Q : fl ((1000:ℚ)) = 1000 := by
  have h := fl_intCast 1000 (by norm_num)
  push_cast at h
  exact h

/-- The float64 result of 3/50.0 (0.06 is not a binary64 value; this is the
double 0x1.eb851eb851eb8p-5). -/
theorem fl_3_50 : fl ((3:ℚ)/50) = 8646911284551352 / 2 ^ 57 := by
  rw [fl_spec ((3:ℚ)/50) (-57)
    (by rw [abs_of_pos (by norm_num : (0:ℚ) < 3/50)]; norm_num)
    (by rw [abs_of_pos (by norm_num : (0:ℚ) < 3/50)]; norm_num)]
  have harg : ((3:ℚ)/50) / 2^(-57:Int) = 3 * 2^57 / 50 := by
    rw [zpow_neg]
    norm_num
  rw [harg, roundNearestEven_eq_of_lt _ 8646911284551352 (by norm_num) (by norm_num)]
  rw [zpow_neg]
  norm_num

/-- The float64 result of 41/10.0 (the double 0x1.0666666666666p+2). -/
theorem fl_41_10 : fl ((41:ℚ)/10) = 4616189618054758 / 2 ^ 50 := by
  rw [fl_spec ((41:ℚ)/10) (-50)
    (by rw [abs_of_pos (by norm_num : (0:ℚ) < 41/10)]; norm_num)
    (by rw [abs_of_pos (by norm_num : (0:ℚ) < 41/10)]; norm_num)]
  have harg : ((41:ℚ)/10) / 2^(-50:Int) = 41 * 2^50 / 10 := by
    rw [zpow_neg]
    norm_num
  rw [harg, roundNearestEven_eq_of_lt _ 4616189618054758 (by norm_num) (by norm_num)]
  rw [zpow_neg]
  norm_num

/-- 1000.0 times the double nearest 0.06 rounds up to exactly 60.0 in
binary64. -/
theorem fl_p1 : fl ((1000:ℚ) * (8646911284551352 / 2 ^ 57)) = 60 := by
  rw [fl_spec _ (-47)
    (by rw [abs_of_pos (by norm_num)]; norm_num)
    (by rw [abs_of_pos (by norm_num)]; norm_num)]
  have harg : ((1000:ℚ) * (8646911284551352 / 2 ^ 57)) / 2^(-47:Int)
      = 1000 * 8646911284551352 / 2 ^ 10 := by
    rw [zpow_neg]
    norm_num
  rw [harg, roundNearestEven_eq_of_gt _ 8444249301319679 (by norm_num) (by norm_num)]
  rw [zpow_neg]
  norm_num

/-- 60.0 times the double nearest 4.1 is the double 0x1.ebfffffffffffp+7 =
245.99999999999997..., just below 246. -/
theorem fl_p2 : fl ((60:ℚ) * (4616189618054758 / 2 ^ 50)) = 8655355533852671 / 2 ^ 45 := by
  rw [fl_spec _ (-45)
    (by rw [abs_of_pos (by norm_num)]; norm_num)
    (by rw [abs_of_pos (by norm_num)]; norm_num)]
  have harg : ((60:ℚ) * (4616189618054758 / 2 ^ 50)) / 2^(-45:Int)
      = 60 * 4616189618054758 / 2 ^ 5 := by
    rw [zpow_neg]
    norm_num
  rw [harg, roundNearestEven_eq_of_lt _ 8655355533852671 (by norm_num) (by norm_num)]
  rw [zpow_neg]
  norm_num

theorem fl_p2_self : fl ((8655355533852671:ℚ) / 2 ^ 45) = 8655355533852671 / 2 ^ 45 := by
  have h := fl_dyadic 8655355533852671 (-45) (by norm_num) (by norm_num)
  rw [show ((8655355533852671:ℚ) / 2 ^ 45) = ((8655355533852671:Int):ℚ) * 2 ^ (-45:Int) by
    rw [zpow_neg]
    push_cast
    norm_num]
  exact h

theorem trunc_p2 : ratTruncToInt ((8655355533852671:ℚ) / 2 ^ 45) = 245 := by
  rw [ratTruncToInt_eq_floor _ (by norm_num)]
  rw [Int.floor_eq_iff]
  constructor <;> norm_num

theorem estimateCurrentUsers_bounds (a : CodeAnalysis) :
    100 ≤ estimateCurrentUsers a ∧ estimateCurrentUsers a ≤ 1000000 := by
  unfold estimateCurrentUsers
  dsimp only
  split_ifs <;> omega

theorem validateResourceEstimates_bounds (r : ResourceMetrics) :
    128 ≤ (validateResourceEstimates r).MemoryMB ∧
    (validateResourceEstimates r).MemoryMB ≤ 16384 ∧
    (1/10 : ℚ) ≤ (validateResourceEstimates r).CPUCores ∧
    (validateResourceEstimates r).CPUCores ≤ 32 ∧
    1 ≤ (validateResourceEstimates r).DatabaseConns ∧
    (validateResourceEstimates r).DatabaseConns ≤ 1000 ∧
    1 ≤ (validateResourceEstimates r).NetworkMbps ∧
    (validateResourceEstimates r).NetworkMbps ≤ 10000 ∧
    1 ≤ (validateResourceEstimates r).StorageGB ∧
    (validateResourceEstimates r).StorageGB ≤ 10000 := by
  unfold validateResourceEstimates
  dsimp only
  refine ⟨?_, ?_, ?_, ?_, ?_, ?_, ?_, ?_, ?_, ?_⟩ <;>
    split_ifs <;> first | omega | linarith

theorem default_ne_empty (s : String) : (if s = "" then "Unknown" else s) ≠ "" := by
  split_ifs with h
  · decide
  · exact h

attribute [ext] ResourceMetrics CodeAnalysis

theorem estimateCurrentUsers_congr {a b : CodeAnalysis}
    (h1 : a.ComplexityScore = b.ComplexityScore) (h2 : a.ApiEndpoints = b.ApiEndpoints)
    (h3 : a.BackgroundJobs = b.BackgroundJobs) :
    estimateCurrentUsers a = estimateCurrentUsers b := by
  unfold estimateCurrentUsers
  rw [h1, h2, h3]

theorem validateResourceEstimates_idem (r : ResourceMetrics) :
    validateResourceEstimates (validateResourceEstimates r) = validateResourceEstimates r := by
  unfold validateResourceEstimates
  dsimp only
  simp only [ResourceMetrics.mk.injEq]
  refine ⟨?_, ?_, ?_, ?_, ?_⟩ <;> split_ifs <;> rfl

theorem estimateCurrentUsers_zeroReport : estimateCurrentUsers zeroReport = 100 := by
  unfold estimateCurrentUsers
  norm_num [zeroReport, fl_zero, fl_1000Q, ratTruncToInt_zero]

theorem estimateCurrentUsers_post_zeroReport :
    estimateCurrentUsers (postProcess zeroReport) = 500 := by
  unfold estimateCurrentUsers
  norm_num [postProcess, zeroReport, fl_zero, fl_50, fl_1, fl_500, fl_1000Q,
    ratTruncToInt_500]

/-- The sequential clamp of estimateCurrentUsers (raise to 100, then cap at
1000000) written as max/min. -/
theorem clamp_seq_eq (t : Int) :
    (if (if t < 100 then 100 else t) > 1000000 then 1000000 else (if t < 100 then 100 else t))
      = max 100 (min 1000000 t) := by
  simp only [max_def, min_def]
  split_ifs <;> omega

/-- The estimated-users formula exactly as the spec states it, for comparison
with the code: clamp(1000 * (complexity/50) * max(0.5, endpoints/10) *
(1.5 if background_jobs non-empty else 1.0), 100, 1000000), over ℚ. -/
def specUsersFormula (complexity endpoints : Int) (backgroundJobs : List String) : ℚ :=
  max 100 (min 1000000
    (1000 * ((complexity : ℚ) / 50) * max (1/2) ((endpoints : ℚ) / 10) *
      (if backgroundJobs = [] then 1 else 3/2)))

/-- Claim C1: every Report returned by the Normalizer (postProcess) has memory
in [128, 16384] MB, CPU cores in [0.1, 32.0], database connections in
[1, 1000], network bandwidth in [1, 10000] Mbps, storage in [1, 10000] GB,
non-empty language and framework strings, and estimated_users in
[100, 1000000]. -/
theorem normalizer_bounds (a : CodeAnalysis) :
    128 ≤ (postProcess a).ResourceUsage.MemoryMB ∧
    (postProcess a).ResourceUsage.MemoryMB ≤ 16384 ∧
    (1/10 : ℚ) ≤ (postProcess a).ResourceUsage.CPUCores ∧
    (postProcess a).ResourceUsage.CPUCores ≤ 32 ∧
    1 ≤ (postProcess a).ResourceUsage.DatabaseConns ∧
    (postProcess a).ResourceUsage.DatabaseConns ≤ 1000 ∧
    1 ≤ (postProcess a).ResourceUsage.NetworkMbps ∧
    (postProcess a).ResourceUsage.NetworkMbps ≤ 10000 ∧
    1 ≤ (postProcess a).ResourceUsage.StorageGB ∧
    (postProcess a).ResourceUsage.StorageGB ≤ 10000 ∧
    (postProcess a).Language ≠ "" ∧
    (postProcess a).Framework ≠ "" ∧
    100 ≤ (postProcess a).EstimatedUsers ∧
    (postProcess a).EstimatedUsers ≤ 1000000 := by
  obtain ⟨m1, m2, c1, c2, d1, d2, n1, n2, s1, s2⟩ :=
    validateResourceEstimates_bounds a.ResourceUsage
  obtain ⟨u1, u2⟩ := estimateCurrentUsers_bounds a
  exact ⟨m1, m2, c1, c2, d1, d2, n1, n2, s1, s2,
    default_ne_empty a.Language, default_ne_empty a.Framework, u1, u2⟩

/-- Claim C2 counterexample: the Normalizer is not idempotent. On the all-zero
Report the first application computes estimated_users from complexity 0
(yielding the clamp floor 100) and then resets complexity to 50; the second
application recomputes estimated_users from complexity 50, yielding 500. -/
theorem normalizer_not_idempotent :
    postProcess (postProcess zeroReport) ≠ postProcess zeroReport := by
  intro h
  have h2 := congrArg CodeAnalysis.EstimatedUsers h
  have h3 : (postProcess (postProcess zeroReport)).EstimatedUsers = 500 :=
    estimateCurrentUsers_post_zeroReport
  have h4 : (postProcess zeroReport).EstimatedUsers = 100 :=
    estimateCurrentUsers_zeroReport
  rw [h3, h4] at h2
  exact absurd h2 (by norm_num)

/-- Claim C2 (amended): the Normalizer is idempotent on every Report whose
complexity score is nonzero (the code computes estimated_users before applying
the complexity default, so only the zero-complexity sentinel breaks
idempotence). -/
theorem normalizer_idempotent_of_nonzero_complexity (a : CodeAnalysis)
    (h : a.ComplexityScore ≠ 0) :
    postProcess (postProcess a) = postProcess a := by
  have hc : (postProcess a).ComplexityScore = a.ComplexityScore := if_neg h
  have hcne : (postProcess a).ComplexityScore ≠ 0 := by rw [hc]; exact h
  have hu : estimateCurrentUsers (postProcess a) = estimateCurrentUsers a :=
    estimateCurrentUsers_congr hc rfl rfl
  apply CodeAnalysis.ext
  case ProjectID => rfl
  case Timestamp => rfl
  case Directory => rfl
  case Language => exact if_neg (default_ne_empty a.Language)
  case Framework => exact if_neg (default_ne_empty a.Framework)
  case Dependencies => rfl
  case DatabaseCalls => rfl
  case ApiEndpoints => rfl
  case StatelessFuncs => rfl
  case BackgroundJobs => rfl
  case CacheUsage => rfl
  case FileUploads => rfl
  case ComplexityScore => exact if_neg hcne
  case ScalingBottlenecks => rfl
  case ResourceUsage => exact validateResourceEstimates_idem a.ResourceUsage
  case EstimatedUsers => exact hu
  case SecurityIssues => rfl
  case Performance => rfl

/-- A Report as the passes typically produce it, with a nonzero complexity
score. -/
def typicalReport : CodeAnalysis :=
  { zeroReport with
    Language := "Go"
    Framework := "Gin"
    ComplexityScore := 72
    ApiEndpoints := 12 }

/-- Witness for the amended Claim C2 at a concrete Report with nonzero
complexity. -/
theorem normalizer_idempotent_witness :
    postProcess (postProcess typicalReport) = postProcess typicalReport :=
  normalizer_idempotent_of_nonzero_complexity typicalReport (by decide)

/-- Claim C3 counterexample: on the all-zero Report the Normalizer returns
estimated_users = 100 (computed from the input complexity 0), but the spec
formula evaluated on the returned Report (complexity 50 after defaulting,
0 endpoints, no jobs) yields 500. -/
theorem users_formula_on_output_fails :
    ¬ (((postProcess zeroReport).EstimatedUsers : ℚ) =
        specUsersFormula (postProcess zeroReport).ComplexityScore
          (postProcess zeroReport).ApiEndpoints (postProcess zeroReport).BackgroundJobs) := by
  have h1 : (postProcess zeroReport).EstimatedUsers = 100 := estimateCurrentUsers_zeroReport
  have h2 : (postProcess zeroReport).ComplexityScore = 50 := rfl
  have h3 : (postProcess zeroReport).ApiEndpoints = 0 := rfl
  have h4 : (postProcess zeroReport).BackgroundJobs = [] := rfl
  rw [h1, h2, h3, h4]
  norm_num [specUsersFormula, max_def, min_def]

/-- The estimated-users formula as the spec states it, with each operation of
the product evaluated in binary64 — exactly the sequence of roundings of the
Go float64 code: the int-to-float conversions, the two divisions and the
left-associated product chain each round. -/
def specUsersFormulaFloat (complexity endpoints : Int) (backgroundJobs : List String) : Int :=
  let p1 : ℚ := fl (fl ((1000 : Int) : ℚ) * fl (fl (complexity : ℚ) / 50))
  let p2 : ℚ := fl (p1 * max (1/2) (fl (fl (endpoints : ℚ) / 10)))
  let p3 : ℚ := fl (p2 * (if backgroundJobs = [] then 1 else 3/2))
  max 100 (min 1000000 (ratTruncToInt p3))

/-- A Report on which binary64 evaluation and exact rational arithmetic of the
user formula disagree: complexity 3, 41 endpoints, no background jobs. -/
def floatEdgeReport : CodeAnalysis :=
  { zeroReport with ComplexityScore := 3, ApiEndpoints := 41 }

/-- The float64 arithmetic the code performs diverges from exact arithmetic:
at complexity 3, 41 endpoints and no background jobs the float64 product is
245.99999999999997... and truncates to 245, while exact rational evaluation of
the spec formula gives 246 — so only the binary64 reading of the formula is
faithful to the program. -/
theorem users_float64_truncation_differs :
    estimateCurrentUsers floatEdgeReport = 245 ∧ specUsersFormula 3 41 [] = 246 := by
  constructor
  · unfold estimateCurrentUsers
    dsimp only
    have hc : floatEdgeReport.ComplexityScore = 3 := rfl
    have he : floatEdgeReport.ApiEndpoints = 41 := rfl
    have hj : floatEdgeReport.BackgroundJobs = [] := rfl
    rw [hc, he, hj]
    push_cast
    rw [fl_3, fl_41, fl_3_50, fl_41_10, fl_1000Q, fl_p1]
    rw [if_neg (by norm_num : ¬(4616189618054758 / 2 ^ 50 : ℚ) < 1/2)]
    rw [if_neg (by simp : ¬0 < ([] : List String).length), mul_one, fl_p2, fl_p2_self,
      trunc_p2]
    norm_num
  · norm_num [specUsersFormula, max_def, min_def]

/-- Claim C3 (amended): the estimated_users of the Report the Normalizer
returns equals clamp(1000 * (complexity/50) * max(0.5, endpoints/10) *
(1.5 if background_jobs non-empty else 1.0), 100, 1000000), with the product
evaluated in binary64 floating point exactly as the Go float64 code computes
it, and with complexity, endpoints and background_jobs taken from the INPUT
Report. Two corrections against the claim as written: complexity is the
pre-defaulting input score (the code computes estimated_users before resetting
a zero complexity to 50), and the product is float64-rounded, which can change
the truncated result against exact arithmetic (users_float64_truncation_differs:
complexity 3 with 41 endpoints gives 245 in float64 but 246 exactly).
Endpoints and background jobs coincide with the returned Report's. -/
theorem users_formula_on_input (a : CodeAnalysis) :
    (postProcess a).EstimatedUsers
      = specUsersFormulaFloat a.ComplexityScore a.ApiEndpoints a.BackgroundJobs := by
  have hL : (postProcess a).EstimatedUsers = estimateCurrentUsers a := rfl
  rw [hL]
  unfold estimateCurrentUsers specUsersFormulaFloat
  dsimp only
  have hmax : (if fl (fl (a.ApiEndpoints : ℚ) / 10) < 1/2 then (1/2:ℚ)
        else fl (fl (a.ApiEndpoints : ℚ) / 10))
      = max (1/2) (fl (fl (a.ApiEndpoints : ℚ) / 10)) := by
    rcases lt_or_le (fl (fl (a.ApiEndpoints : ℚ) / 10)) (1/2) with h | h
    · rw [if_pos h, max_eq_left (le_of_lt h)]
    · rw [if_neg (not_lt.mpr h), max_eq_right h]
  have hjob : (if 0 < a.BackgroundJobs.length then (3/2:ℚ) else 1)
      = (if a.BackgroundJobs = [] then 1 else 3/2) := by
    rcases eq_or_ne a.BackgroundJobs [] with h | h
    · simp [h]
    · simp [h, List.length_pos.mpr h]
  rw [hmax, hjob, clamp_seq_eq]

/-- A Report whose complexity score is already above 100 when it reaches the
Normalizer. -/
def overComplexReport : CodeAnalysis := { zeroReport with ComplexityScore := 150 }

/-- Claim C4 counterexample: the Normalizer does not clamp a nonzero
out-of-range complexity score; an input score of 150 is returned unchanged,
outside [1, 100]. -/
theorem complexity_not_always_bounded :
    ¬ (1 ≤ (postProcess overComplexReport).ComplexityScore ∧
        (postProcess overComplexReport).ComplexityScore ≤ 100) := by
  intro h
  have : (postProcess overComplexReport).ComplexityScore = 150 := rfl
  omega

/-- Claim C4 (amended): on every input Report whose complexity score lies in
[0, 100] — as all reports produced by the extraction passes do, since
extractComplexity only yields values in [1, 100] and the orchestrator
initializes the score to 0 — the Normalizer returns a complexity score in
[1, 100], and a zero score (the unset sentinel) is reset to exactly 50. -/
theorem complexity_bounds_of_inrange (a : CodeAnalysis)
    (h0 : 0 ≤ a.ComplexityScore) (h100 : a.ComplexityScore ≤ 100) :
    (1 ≤ (postProcess a).ComplexityScore ∧ (postProcess a).ComplexityScore ≤ 100) ∧
      (a.ComplexityScore = 0 → (postProcess a).ComplexityScore = 50) := by
  have hc : (postProcess a).ComplexityScore
      = if a.ComplexityScore = 0 then 50 else a.ComplexityScore := rfl
  rw [hc]
  split_ifs <;> omega

/-- Witness for the amended Claim C4 at the all-zero Report. -/
theorem complexity_bounds_witness :
    ((1 ≤ (postProcess zeroReport).ComplexityScore ∧
        (postProcess zeroReport).ComplexityScore ≤ 100) ∧
      (zeroReport.ComplexityScore = 0 → (postProcess zeroReport).ComplexityScore = 50)) :=
  complexity_bounds_of_inrange zeroReport (by decide) (by decide)

/-- Claim C10: the Normalizer modifies at most estimated_users, language,
framework, complexity_score and the resource estimates; every other Report
field is returned unchanged. -/
theorem normalizer_frame (a : CodeAnalysis) :
    (postProcess a).ProjectID = a.ProjectID ∧
    (postProcess a).Timestamp = a.Timestamp ∧
    (postProcess a).Directory = a.Directory ∧
    (postProcess a).Dependencies = a.Dependencies ∧
    (postProcess a).DatabaseCalls = a.DatabaseCalls ∧
    (postProcess a).ApiEndpoints = a.ApiEndpoints ∧
    (postProcess a).StatelessFuncs = a.StatelessFuncs ∧
    (postProcess a).BackgroundJobs = a.BackgroundJobs ∧
    (postProcess a).CacheUsage = a.CacheUsage ∧
    (postProcess a).FileUploads = a.FileUploads ∧
    (postProcess a).ScalingBottlenecks = a.ScalingBottlenecks ∧
    (postProcess a).SecurityIssues = a.SecurityIssues ∧
    (postProcess a).Performance = a.Performance :=
  ⟨rfl, rfl, rfl, rfl, rfl, rfl, rfl, rfl, rfl, rfl, rfl, rfl, rfl⟩

/-! ## Text extractors (internal/claude)

The extractors work on Go strings, modelled as `List Char`. Go's
strings.ToLower is modelled by ASCII lowercasing (Char.toLower); every
vocabulary word and claim text involved is ASCII. The two regular-expression
shapes used by the extraction code are embedded as dedicated leftmost-first
backtracking matchers, the match semantics of Go's regexp package (Perl-style
leftmost-first, greedy `\d+` and `.*`, lazy `.*?`). -/

/-- strings.ToLower on ASCII text. -/
def lowerStr (s : List Char) : List Char := s.map Char.toLower

/-- strings.Contains: pat occurs as a contiguous substring. -/
def containsSub (pat : List Char) : List Char → Bool
  | [] => pat.isEmpty
  | c :: cs => List.isPrefixOf pat (c :: cs) || containsSub pat cs

/-- Case-insensitive anchored match of a lowercase pattern at the head of the
text, as the `(?i)` flag of the Go patterns demands. -/
def startsWithCI : List Char → List Char → Bool
  | [], _ => true
  | _ :: _, [] => false
  | p :: ps, c :: cs => (p == c.toLower) && startsWithCI ps cs

/-- Case-insensitive substring occurrence, the effect of `.*(?:k1|k2)` -/
def containsCI (pat : List Char) : List Char → Bool
  | [] => pat.isEmpty
  | c :: cs => startsWithCI pat (c :: cs) || containsCI pat cs

/-- The maximal digit run at the head of the text (greedy `\d+`). -/
def takeDigits : List Char → List Char
  | [] => []
  | c :: cs => if c.isDigit then c :: takeDigits cs else []

/-- strconv.Atoi on a run of decimal digits. -/
def digitsToNat (ds : List Char) : Nat :=
  ds.foldl (fun acc c => acc * 10 + (c.toNat - 48)) 0

/-- Backtracking over the greedy `(\d+)` capture of `(\d+).*(?:k1|k2)`:
capture lengths are tried longest first; ds is the maximal digit run at the
current position and rest the text after it. The regex succeeds when some
alternative occurs anywhere after the captured digits. -/
def tryCaptureLens (alts : List (List Char)) (ds rest : List Char) : Nat → Option Nat
  | 0 => none
  | Nat.succ k =>
    if alts.any (fun a => containsCI a (ds.drop (k+1) ++ rest)) then
      some (digitsToNat (ds.take (k+1)))
    else tryCaptureLens alts ds rest k

/-- Leftmost-first scan for `(?i)(\d+).*(?:k1|k2)`: the match must start at a
digit; every start position is tried left to right. -/
def findNumThenKeyword (alts : List (List Char)) : List Char → Option Nat
  | [] => none
  | c :: cs =>
    if c.isDigit then
      let ds := takeDigits (c :: cs)
      let rest := (c :: cs).drop ds.length
      match tryCaptureLens alts ds rest ds.length with
      | some n => some n
      | none => findNumThenKeyword alts cs
    else findNumThenKeyword alts cs

/-- extractNumber (claude.go lines 270-279) at patterns of the shape
`(?i)(\d+).*(?:k1|k2)` — the shape of every call site that reaches it through
analyzeDatabaseAndAPI and extractComplexity: first submatch of the leftmost
match, 0 on miss. The digit runs of the texts involved stay far below the
int64 bound, so strconv.Atoi is modelled as exact. -/
def extractNumber (alts : List String) (text : List Char) : Int :=
  match findNumThenKeyword (alts.map String.toList) text with
  | some n => (n : Int)
  | none => 0

/-- The lazy `.*?(\d+)` continuation: first digit position after the keyword,
then the greedy maximal run there. -/
def firstNumFrom : List Char → Option Nat
  | [] => none
  | c :: cs => if c.isDigit then some (digitsToNat (takeDigits (c :: cs))) else firstNumFrom cs

/-- Alternation at a fixed start position: alternatives tried in pattern
order; on digit-less continuation the matcher backtracks to the next
alternative. -/
def tryAltsThenNum (t : List Char) : List (List Char) → Option Nat
  | [] => none
  | a :: more =>
    if startsWithCI a t then
      match firstNumFrom (t.drop a.length) with
      | some n => some n
      | none => tryAltsThenNum t more
    else tryAltsThenNum t more

/-- Leftmost-first scan for `(?i)(?:k1|k2).*?(\d+)`. -/
def findKeywordThenNum (alts : List (List Char)) : List Char → Option Nat
  | [] => none
  | c :: cs =>
    match tryAltsThenNum (c :: cs) alts with
    | some n => some n
    | none => findKeywordThenNum alts cs

/-- extractNumber at the keyword-first pattern `(?i)(?:complexity|score).*?(\d+)`
used by extractComplexity (claude.go line 294). -/
def extractNumberKeywordFirst (alts : List String) (text : List Char) : Int :=
  match findKeywordThenNum (alts.map String.toList) text with
  | some n => (n : Int)
  | none => 0

/-- extractComplexity (claude.go lines 292-302): keyword-before-number first,
then number-before-keyword; 50 on miss or out-of-range result. -/
def extractComplexity (text : List Char) : Int :=
  let c1 := extractNumberKeywordFirst ["complexity", "score"] text
  let c2 := if c1 = 0 then extractNumber ["complexity", "score"] text else c1
  if c2 = 0 ∨ 100 < c2 then 50 else c2

/-- The fixed cache vocabulary of extractCacheUsage (claude.go line 308), in
source order. -/
def cacheTypes : List String := ["redis", "memcached", "memory cache", "cdn", "browser cache"]

/-- The accumulation loop of extractCacheUsage: append each vocabulary word
occurring in the lowered text, in vocabulary order. -/
def cacheLoop (lower : List Char) : List String → List String
  | [] => []
  | v :: vs => if containsSub v.toList lower then v :: cacheLoop lower vs else cacheLoop lower vs

/-- extractCacheUsage (claude.go lines 304-316). -/
def extractCacheUsage (text : List Char) : List String :=
  cacheLoop (lowerStr text) cacheTypes

/-- The extraction part of analyzeDatabaseAndAPI (claude.go lines 157-163),
applied to the pass-2 tool output. -/
def applyDatabaseAndAPI (output : List Char) (a : CodeAnalysis) : CodeAnalysis :=
  { a with
    DatabaseCalls := extractNumber ["database", "query"] output
    ComplexityScore := extractComplexity output
    CacheUsage := extractCacheUsage output
    Performance := { a.Performance with
      HasNPlusOneQuery :=
        containsSub ("n+1".toList) (lowerStr output) ||
        containsSub ("n plus one".toList) (lowerStr output) } }

/-- The concrete pass-2 text of Claim C7. -/
def c7text : List Char :=
  "Found 37 database calls and complexity score: 72. Uses Redis for caching.".toList

/-- Claim C7: on the text "Found 37 database calls and complexity score: 72.
Uses Redis for caching." the Database/API pass sets database_calls = 37,
complexity_score = 72 and cache_usage = ["redis"], whatever the in-progress
Report was. -/
theorem database_api_pass_example (a : CodeAnalysis) :
    (applyDatabaseAndAPI c7text a).DatabaseCalls = 37 ∧
    (applyDatabaseAndAPI c7text a).ComplexityScore = 72 ∧
    (applyDatabaseAndAPI c7text a).CacheUsage = ["redis"] := by
  refine ⟨?_, ?_, ?_⟩
  · show extractNumber ["database", "query"] c7text = 37
    decide
  · show extractComplexity c7text = 72
    decide
  · show extractCacheUsage c7text = ["redis"]
    decide

/-- The cache vocabulary exactly as the spec's sentence lists it, for
comparison with the code's cacheTypes: the spec says "in-process cache" where
the code matches the string "memory cache". -/
def specCacheVocabulary : List String :=
  ["redis", "memcached", "in-process cache", "CDN", "browser cache"]

/-- extract_cache_technologies as the spec's sentence describes it: the subset
of its vocabulary whose name occurs as a substring of the lower-cased text, in
vocabulary order. -/
def specExtractCache (text : List Char) : List String :=
  specCacheVocabulary.filter (fun v => containsSub v.toList (lowerStr text))

/-- A text naming the in-process cache the way the spec's vocabulary does. -/
def c8text : List Char := "The service uses an in-process cache for sessions.".toList

/-- Claim C8 counterexample: on a text containing "in-process cache" the code
returns the empty list (its vocabulary word is "memory cache"), while the
spec's vocabulary selects ["in-process cache"]. -/
theorem cache_vocabulary_mismatch : extractCacheUsage c8text ≠ specExtractCache c8text := by
  decide

/-- Claim C8 (amended): extractCacheUsage returns exactly the subset of the
code's fixed vocabulary {redis, memcached, memory cache, cdn, browser cache}
whose name occurs as a substring of the lower-cased text, ordered by the
vocabulary list (a sublist of it), not by order of appearance. -/
theorem cache_extraction_filter (text : List Char) :
    extractCacheUsage text
        = cacheTypes.filter (fun v => containsSub v.toList (lowerStr text)) ∧
      (extractCacheUsage text).Sublist cacheTypes := by
  have h : ∀ (l : List String), cacheLoop (lowerStr text) l
      = l.filter (fun v => containsSub v.toList (lowerStr text)) := by
    intro l
    induction l with
    | nil => rfl
    | cons v vs ih =>
      cases hv : containsSub v.toList (lowerStr text) <;>
        simp [cacheLoop, List.filter_cons, hv, ih]
  refine ⟨h cacheTypes, ?_⟩
  rw [show extractCacheUsage text = cacheLoop (lowerStr text) cacheTypes from rfl, h cacheTypes]
  exact List.filter_sublist cacheTypes

/-! ## Resource-estimation defaults (pass 4) -/

/-- estimateMemoryFromComplexity (claude.go lines 366-378). -/
def estimateMemoryFromComplexity (complexity : Int) : Int :=
  if complexity ≥ 80 then 2048
  else if complexity ≥ 60 then 1024
  else if complexity ≥ 40 then 512
  else 256

/-- estimateCPUFromEndpoints (claude.go lines 380-392). -/
def estimateCPUFromEndpoints (endpoints : Int) : ℚ :=
  if endpoints ≥ 50 then 4
  else if endpoints ≥ 20 then 2
  else if endpoints ≥ 10 then 1
  else 1/2

/-- The assignment and defaulting part of estimateResources (claude.go lines
212-225), with the five per-dimension extraction results of lines 212-216 as
explicit inputs: any dimension whose extraction came back zero is replaced —
for memory and CPU only — by the complexity/endpoint lookup heuristics. -/
def applyResourceDefaults (exMem : Int) (exCPU : ℚ)
    (exConns exNet exStorage : Int) (a : CodeAnalysis) : CodeAnalysis :=
  { a with ResourceUsage := {
      MemoryMB := if exMem = 0 then estimateMemoryFromComplexity a.ComplexityScore else exMem
      CPUCores := if exCPU = 0 then estimateCPUFromEndpoints a.ApiEndpoints else exCPU
      DatabaseConns := exConns
      NetworkMbps := exNet
      StorageGB := exStorage } }

/-- Claim C6: two independent conditionals. Whenever the memory dimension
extracts to zero — whatever the CPU dimension extracted — the pass sets memory
from the complexity lookup table (>= 80 -> 2048 MB, >= 60 -> 1024 MB,
>= 40 -> 512 MB, else 256 MB); and whenever the CPU dimension extracts to
zero — whatever the memory dimension extracted — CPU cores come from the
endpoint lookup table (>= 50 -> 4.0, >= 20 -> 2.0, >= 10 -> 1.0, else 0.5). -/
theorem resource_defaults_lookup (exMem : Int) (exCPU : ℚ)
    (exConns exNet exStorage : Int) (a : CodeAnalysis) :
    (exMem = 0 →
      (applyResourceDefaults exMem exCPU exConns exNet exStorage a).ResourceUsage.MemoryMB
        = (if a.ComplexityScore ≥ 80 then 2048 else if a.ComplexityScore ≥ 60 then 1024
           else if a.ComplexityScore ≥ 40 then 512 else 256)) ∧
    (exCPU = 0 →
      (applyResourceDefaults exMem exCPU exConns exNet exStorage a).ResourceUsage.CPUCores
        = (if a.ApiEndpoints ≥ 50 then 4 else if a.ApiEndpoints ≥ 20 then 2
           else if a.ApiEndpoints ≥ 10 then 1 else 1/2)) := by
  constructor
  · intro hm
    subst hm
    show (if (0 : Int) = 0 then estimateMemoryFromComplexity a.ComplexityScore else 0) = _
    rw [if_pos rfl]
    rfl
  · intro hc
    subst hc
    show (if (0 : ℚ) = 0 then estimateCPUFromEndpoints a.ApiEndpoints else 0) = _
    rw [if_pos rfl]
    rfl

/-- The Report as it reaches pass 4 in the concrete instance of Claim C6:
complexity 85, three endpoints. -/
def preResourceReport : CodeAnalysis :=
  { zeroReport with ComplexityScore := 85, ApiEndpoints := 3 }

/-- Witness for Claim C6, exercising the two conditionals independently: with
complexity 85 and 3 endpoints, zero extracted memory alongside a NONZERO
extracted CPU (3.5 cores) still defaults memory to 2048; zero extracted CPU
alongside a NONZERO extracted memory (512 MB) still defaults CPU to 0.5; and
the claim's both-zero instance yields memory 2048 with CPU 0.5. -/
theorem resource_defaults_witness :
    (applyResourceDefaults 0 (7/2) 25 100 20 preResourceReport).ResourceUsage.MemoryMB = 2048 ∧
    (applyResourceDefaults 512 0 25 100 20 preResourceReport).ResourceUsage.CPUCores = 1/2 ∧
    (applyResourceDefaults 0 0 25 100 20 preResourceReport).ResourceUsage.MemoryMB = 2048 ∧
    (applyResourceDefaults 0 0 25 100 20 preResourceReport).ResourceUsage.CPUCores = 1/2 := by
  refine ⟨?_, ?_, ?_, ?_⟩
  · rw [(resource_defaults_lookup 0 (7/2) 25 100 20 preResourceReport).1 rfl]
    decide
  · rw [(resource_defaults_lookup 512 0 25 100 20 preResourceReport).2 rfl]
    have he : preResourceReport.ApiEndpoints = 3 := rfl
    rw [he]
    norm_num
  · rw [(resource_defaults_lookup 0 0 25 100 20 preResourceReport).1 rfl]
    decide
  · rw [(resource_defaults_lookup 0 0 25 100 20 preResourceReport).2 rfl]
    have he : preResourceReport.ApiEndpoints = 3 := rfl
    rw [he]
    norm_num

/-! ## Orchestrator (claude.Client.Analyze) -/

/-- The Report as Analyze initializes it (claude.go lines 52-56): project id,
timestamp and directory set, every other field at its zero value. -/
def initialAnalysis (projectID directory : String) (timestamp : Nat) : CodeAnalysis :=
  { zeroReport with ProjectID := projectID, Timestamp := timestamp, Directory := directory }

/-- Analyze (claude.go lines 47-88): four sequential passes over the shared
report. Each rᵢ is the result of the pass's external-tool invocation
(runClaudeCommand, lines 230-239): combined output on success, the invocation
error otherwise; each bᵢ is the pass's extraction body applied to the output
on success. In the source the pass bodies return an error exactly when their
command does (a structured-decode failure in pass 1 falls back to heuristics
rather than failing), so the bodies are total functions here and each pass
propagates exactly its command's error, wrapped with the pass's message
prefix, aborting the remaining passes. -/
def clientAnalyze (b1 b2 b3 b4 : String → CodeAnalysis → CodeAnalysis)
    (r1 r2 r3 r4 : Except String String)
    (projectID directory : String) (timestamp : Nat) : Except String CodeAnalysis :=
  let analysis0 := initialAnalysis projectID directory timestamp
  match r1 with
  | .error e => .error ("basic analysis failed: " ++ e)
  | .ok out1 =>
    let analysis1 := b1 out1 analysis0
    match r2 with
    | .error e => .error ("database/API analysis failed: " ++ e)
    | .ok out2 =>
      let analysis2 := b2 out2 analysis1
      match r3 with
      | .error e => .error ("performance analysis failed: " ++ e)
      | .ok out3 =>
        let analysis3 := b3 out3 analysis2
        match r4 with
        | .error e => .error ("resource estimation failed: " ++ e)
        | .ok out4 => .ok (b4 out4 analysis3)

/-- Claim C5: if the external-tool invocation of any of the four passes fails,
Analyze returns an error and the caller receives no Report at all — never a
partially-populated one. -/
theorem analyze_error_on_pass_failure (b1 b2 b3 b4 : String → CodeAnalysis → CodeAnalysis)
    (r1 r2 r3 r4 : Except String String) (projectID directory : String) (timestamp : Nat)
    (h : (∃ e, r1 = .error e) ∨ (∃ e, r2 = .error e) ∨
         (∃ e, r3 = .error e) ∨ (∃ e, r4 = .error e)) :
    (∃ e, clientAnalyze b1 b2 b3 b4 r1 r2 r3 r4 projectID directory timestamp
        = .error e) ∧
      ∀ a, clientAnalyze b1 b2 b3 b4 r1 r2 r3 r4 projectID directory timestamp
        ≠ .ok a := by
  cases r1 <;> cases r2 <;> cases r3 <;> cases r4 <;> simp_all [clientAnalyze]

/-- Witness for Claim C5: with pass 1's invocation failing, Analyze yields an
error and no Report. -/
theorem analyze_error_witness :
    (∃ e, clientAnalyze (fun _ a => a) (fun _ a => a) (fun _ a => a) (fun _ a => a)
        (Except.error "exit status 1") (Except.ok "") (Except.ok "") (Except.ok "")
        "proj" "dir" 0 = Except.error e) ∧
      ∀ a, clientAnalyze (fun _ a => a) (fun _ a => a) (fun _ a => a) (fun _ a => a)
        (Except.error "exit status 1") (Except.ok "") (Except.ok "") (Except.ok "")
        "proj" "dir" 0 ≠ Except.ok a :=
  analyze_error_on_pass_failure _ _ _ _ _ _ _ _ _ _ _ (Or.inl ⟨"exit status 1", rfl⟩)

/-! ## Report sink (internal/api/client.go) -/

/-- The response handling of SendAnalysis (client.go lines 91-94): any status
other than 200 (http.StatusOK) and 201 (http.StatusCreated) produces an error
carrying the response body. -/
def sendAnalysisStatus (status : Nat) (body : String) : Except String Unit :=
  if status ≠ 200 ∧ status ≠ 201 then
    .error ("API request failed with status " ++ toString status ++ ": " ++ body)
  else .ok ()

/-- Claim C9 counterexample: status 204 is 2xx, so the claim calls it a
success, but SendAnalysis fails on it — the code accepts only 200 and 201. -/
theorem send_analysis_not_all_2xx :
    (200 ≤ 204 ∧ 204 ≤ 299) ∧ sendAnalysisStatus 204 "ok" ≠ .ok () := by
  refine ⟨⟨by norm_num, by norm_num⟩, ?_⟩
  simp [sendAnalysisStatus]

/-- Claim C9 (amended): SendAnalysis succeeds exactly on statuses 200 and 201;
every other status — including the remaining 2xx — fails with an error
carrying the response body. -/
theorem send_analysis_success_iff_200_201 (status : Nat) (body : String) :
    sendAnalysisStatus status body
      = if status = 200 ∨ status = 201 then Except.ok ()
        else Except.error
          ("API request failed with status " ++ toString status ++ ": " ++ body) := by
  unfold sendAnalysisStatus
  by_cases h : status = 200 ∨ status = 201
  · rw [if_neg (by tauto : ¬(status ≠ 200 ∧ status ≠ 201)), if_pos h]
  · rw [if_pos (by tauto : status ≠ 200 ∧ status ≠ 201), if_neg h]

end CloudPork
